import Mathlib

/-!
Shallow embedding of the render_deploy_project backend (src/server.js and
the mongoose models).  Document-store collections are modelled as Lean
lists, each document as a structure carrying its Mongo id.  Request
handlers become pure functions from the authentication outcome, the
current store and the request data to a response, the new store and the
list of Socket.IO events emitted.  Absent JSON body fields are `none`.
-/

namespace RenderDeploy

/-- User document, from models/FormData.js (collection log_reg_form). -/
structure User where
  userId : String
  role : String
  firstName : String
  lastName : String
  email : String
  password : String
  phone : String
  address : String
  country : String
  state : String
  description : String
deriving DecidableEq, Repr

/-- Event document, from models/eventModel.js. -/
structure Event where
  id : String
  name : String
  genre : String
  host : String
  image : Option String
  description : String
  location : String
  date : String
  userId : String
  slots : Nat
  bookeduser : List String
  link : String
deriving DecidableEq, Repr

/-- Post document, from models/createPostFormData.js. -/
structure Post where
  id : String
  userId : String
  userName : String
  message : String
  dateTime : String
  likedUsers : List String
deriving DecidableEq, Repr

/-- Instrument document, from models/InstrumentModel.js.  The rental
fields and status are optional in a raw document; mongoose fills status
with the schema default "available" when the creating request omits it,
which the create handler below reproduces. -/
structure Instrument where
  id : String
  instrumentName : String
  instrumentDescription : Option String
  category : String
  amount : Option String
  image : String
  userId : String
  userName : String
  address : Option String
  contactNumber : Option String
  status : String
  rentedDate : Option String
  expectedReturnDate : Option String
  renterId : Option String
deriving DecidableEq, Repr

/-- Modelled from the spec: the Credential Oracle's one-way salted hash
(bcrypt.hash in the source, an external collaborator treated as an
opaque oracle).  Only the equations hash/verify need are kept. -/
def hashPassword (p : String) : String := "bcrypt2b10$" ++ p

/-- Modelled from the spec: the Credential Oracle's verify
(bcrypt.compare): a password matches exactly its own hash. -/
def comparePassword (p h : String) : Bool := h == hashPassword p

/-- Modelled from the spec: a signed token; jwt.sign binds the payload
field userId to the subject identifier. -/
structure Token where
  userId : String
deriving DecidableEq, Repr

/-- Modelled from the spec: issueToken of the Credential Oracle
(jwt.sign with the userId payload). -/
def issueToken (uid : String) : Token := ⟨uid⟩

/-- Modelled from the spec: outcome of extracting and verifying the
bearer token of a request.  missing: no token after splitting the
Authorization header (the handler answers 401 directly); invalid:
jwt.verify throws (malformed, expired or signature mismatch), so
control jumps to the handler's catch block; valid uid: the decoded
payload's userId. -/
inductive TokenCheck where
  | missing
  | invalid
  | valid (userId : String)
deriving DecidableEq, Repr

/-- An HTTP response: ok carries the JSON payload, err carries the
status code and the message string of the source. -/
inductive ApiResult (α : Type) where
  | ok : α → ApiResult α
  | err : Nat → String → ApiResult α
deriving DecidableEq, Repr

/-- Socket.IO events emitted by the feed handlers. -/
inductive FeedEvent where
  | newPost (p : Post)
  | updatePost (p : Post)
  | deletePost (id : String)
deriving DecidableEq, Repr

/-- Result of a handler invocation: the HTTP response, the store after
the call, and the Socket.IO events emitted during it. -/
structure Reply (α σ : Type) where
  resp : ApiResult α
  store : σ
  emitted : List FeedEvent
deriving DecidableEq, Repr

/-- Request body of POST /register. -/
structure RegisterBody where
  role : String
  firstName : String
  lastName : String
  email : String
  password : String
  phone : String
  address : String
  country : String
  state : String
  description : String
deriving DecidableEq, Repr

/-- The User document POST /register builds: the password is hashed
and the description is kept only for the Artist role (server.js
168-180).  freshId stands for the generated mongoose ObjectId
string. -/
def newUserDoc (body : RegisterBody) (freshId : String) : User :=
  { userId := freshId
    role := body.role
    firstName := body.firstName
    lastName := body.lastName
    email := body.email
    password := hashPassword body.password
    phone := body.phone
    address := body.address
    country := body.country
    state := body.state
    description := if body.role == "Artist" then body.description else "" }

/-- POST /register (server.js 147-187). -/
def register (db : List User) (body : RegisterBody) (freshId : String) :
    Reply Unit (List User) :=
  if (db.find? (fun u => u.email == body.email)).isSome then
    ⟨.err 400 "User already exists", db, []⟩
  else
    ⟨.ok (), db ++ [newUserDoc body freshId], []⟩

/-- POST /login (server.js 190-208). -/
def login (db : List User) (email password : String) : ApiResult Token :=
  match db.find? (fun u => u.email == email) with
  | none => .err 400 "Invalid credentials"
  | some user =>
    if comparePassword password user.password then
      .ok (issueToken user.userId)
    else
      .err 400 "Invalid credentials"

/-- GET /usernames (server.js 210-227). -/
def getUsernames (db : List User) : ApiResult (List String) :=
  if db.isEmpty then
    .err 404 "No users found"
  else
    .ok (db.map (fun u => u.firstName ++ " " ++ u.lastName))

/-- Request body of PUT /user; a JSON field that is absent is none and
is dropped from the mongoose update, leaving the stored value. -/
structure UpdateBody where
  firstName : Option String
  lastName : Option String
  email : Option String
  password : Option String
  country : Option String
  state : Option String
  description : Option String
deriving DecidableEq, Repr

/-- The effect of the PUT /user updateData object on the matched user:
present fields overwrite, the password is hashed first, role is never
part of updateData. -/
def applyUpdate (u : User) (b : UpdateBody) : User :=
  { u with
    firstName := b.firstName.getD u.firstName
    lastName := b.lastName.getD u.lastName
    email := b.email.getD u.email
    country := b.country.getD u.country
    state := b.state.getD u.state
    description := b.description.getD u.description
    password := match b.password with
      | some p => hashPassword p
      | none => u.password }

/-- PUT /user (server.js 230-277).  jwt.verify throwing lands in the
catch block, a 500 "Server error". -/
def updateUser (auth : TokenCheck) (db : List User) (body : UpdateBody) :
    Reply User (List User) :=
  match auth with
  | .missing => ⟨.err 401 "Unauthorized", db, []⟩
  | .invalid => ⟨.err 500 "Server error", db, []⟩
  | .valid uid =>
    match db.find? (fun u => u.userId == uid) with
    | none => ⟨.err 404 "User not found", db, []⟩
    | some u =>
      let u' := applyUpdate u body
      ⟨.ok u', db.map (fun v => if v.userId == uid then u' else v), []⟩

/-- GET /user (server.js 421-436); read-only, so only the response is
modelled. -/
def getUser (auth : TokenCheck) (db : List User) : ApiResult User :=
  match auth with
  | .missing => .err 401 "Unauthorized"
  | .invalid => .err 500 "Server error"
  | .valid uid =>
    match db.find? (fun u => u.userId == uid) with
    | none => .err 404 "User not found"
    | some u => .ok u

/-- GET /eventsdata (server.js 337-357). -/
def getEventsData (events : List Event) : ApiResult (List Event) :=
  if events.isEmpty then
    .err 404 "No events found"
  else
    .ok events

/-- POST /eventsdata/:id/rsvp (server.js 390-418).  The requesting user
reference comes from the body, unauthenticated. -/
def rsvp (events : List Event) (eventId userId : String) :
    Reply Event (List Event) :=
  match events.find? (fun e => e.id == eventId) with
  | none => ⟨.err 404 "Event not found", events, []⟩
  | some e =>
    if e.bookeduser.contains userId then
      ⟨.err 400 "User already RSVP'd", events, []⟩
    else
      let e' := { e with bookeduser := e.bookeduser ++ [userId] }
      ⟨.ok e', events.map (fun x => if x.id == eventId then e' else x), []⟩

/-- The liked-set mutation of PUT /posts/like/:id (server.js 491-501):
present means remove every occurrence, absent means append. -/
def toggleLike (likedUsers : List String) (userId : String) : List String :=
  if likedUsers.any (fun idv => idv == userId) then
    likedUsers.filter (fun idv => idv != userId)
  else
    likedUsers ++ [userId]

/-- PUT /posts/like/:id (server.js 480-514). -/
def likePost (auth : TokenCheck) (posts : List Post) (postId : String) :
    Reply Post (List Post) :=
  match auth with
  | .missing => ⟨.err 401 "Unauthorized", posts, []⟩
  | .invalid => ⟨.err 500 "Server error", posts, []⟩
  | .valid uid =>
    match posts.find? (fun p => p.id == postId) with
    | none => ⟨.err 404 "Post not found", posts, []⟩
    | some p =>
      let p' := { p with likedUsers := toggleLike p.likedUsers uid }
      ⟨.ok p', posts.map (fun q => if q.id == postId then p' else q),
        [.updatePost p']⟩

/-- DELETE /posts/:id (server.js 517-543). -/
def deletePost (auth : TokenCheck) (posts : List Post) (postId : String) :
    Reply Unit (List Post) :=
  match auth with
  | .missing => ⟨.err 401 "Unauthorized", posts, []⟩
  | .invalid => ⟨.err 500 "Server error", posts, []⟩
  | .valid uid =>
    match posts.find? (fun p => p.id == postId) with
    | none => ⟨.err 404 "Post not found", posts, []⟩
    | some p =>
      if p.userId != uid then
        ⟨.err 403 "You cannot delete this post", posts, []⟩
      else
        ⟨.ok (), posts.filter (fun q => q.id != p.id), [.deletePost p.id]⟩

/-- Request body of POST /addnewinstrument; every field the handler
destructures, absent fields are none. -/
structure InstrumentBody where
  instrumentName : String
  instrumentDescription : Option String
  amount : Option String
  userId : String
  userName : String
  address : Option String
  contactNumber : Option String
  status : Option String
  rentedDate : Option String
  expectedReturnDate : Option String
  renterId : Option String
  category : String
deriving DecidableEq, Repr

/-- The Instrument document POST /addnewinstrument builds from the
request: every body field is copied, the schema default "available"
applies only when the body carries no status, and the uploaded image
filename is stored as "" when absent. -/
def newInstrumentDoc (body : InstrumentBody) (file : Option String)
    (freshId : String) : Instrument :=
  { id := freshId
    instrumentName := body.instrumentName
    instrumentDescription := body.instrumentDescription
    category := body.category
    amount := body.amount
    image := file.getD ""
    userId := body.userId
    userName := body.userName
    address := body.address
    contactNumber := body.contactNumber
    status := body.status.getD "available"
    rentedDate := body.rentedDate
    expectedReturnDate := body.expectedReturnDate
    renterId := body.renterId }

/-- POST /addnewinstrument (server.js 545-583). -/
def addnewinstrument (instruments : List Instrument) (body : InstrumentBody)
    (file : Option String) (freshId : String) :
    Reply Unit (List Instrument) :=
  ⟨.ok (), instruments ++ [newInstrumentDoc body file freshId], []⟩

/-- Request body of PUT /instruments/rent/:id. -/
structure RentBody where
  rentedDate : Option String
  expectedReturnDate : Option String
deriving DecidableEq, Repr

/-- The mutation the rent handler applies to the found instrument
(server.js 647-651): status becomes not available and the rental fields
receive the body dates and the requester's id. -/
def rentedDoc (i : Instrument) (renterId : String) (body : RentBody) :
    Instrument :=
  { i with
    status := "not available"
    rentedDate := body.rentedDate
    expectedReturnDate := body.expectedReturnDate
    renterId := some renterId }

/-- PUT /instruments/rent/:id (server.js 612-664).  jwt.verify throwing
lands in the catch block, a 500 with this handler's message. -/
def rentInstrument (auth : TokenCheck) (instruments : List Instrument)
    (instrumentId : String) (body : RentBody) :
    Reply Instrument (List Instrument) :=
  match auth with
  | .missing => ⟨.err 401 "Unauthorized", instruments, []⟩
  | .invalid => ⟨.err 500 "Unable to rent the instrument.", instruments, []⟩
  | .valid renterId =>
    match instruments.find? (fun i => i.id == instrumentId) with
    | none => ⟨.err 404 "Instrument not found.", instruments, []⟩
    | some i =>
      if i.userId == renterId then
        ⟨.err 400 "You cannot rent your own instrument.", instruments, []⟩
      else if i.status != "available" then
        ⟨.err 400 "Instrument is not available for rent.", instruments, []⟩
      else
        let i' := rentedDoc i renterId body
        ⟨.ok i', instruments.map (fun x => if x.id == instrumentId then i' else x), []⟩

/-- The mutation the return handler applies to the found instrument
(server.js 694-698): status back to available, each rental field
assigned the empty string. -/
def returnedDoc (i : Instrument) : Instrument :=
  { i with
    status := "available"
    rentedDate := some ""
    expectedReturnDate := some ""
    renterId := some "" }

/-- PUT /instruments/return/:id (server.js 667-712). -/
def returnInstrument (auth : TokenCheck) (instruments : List Instrument)
    (instrumentId : String) : Reply Instrument (List Instrument) :=
  match auth with
  | .missing => ⟨.err 401 "Unauthorized", instruments, []⟩
  | .invalid => ⟨.err 500 "Unable to return the instrument.", instruments, []⟩
  | .valid uid =>
    match instruments.find? (fun i => i.id == instrumentId) with
    | none => ⟨.err 404 "Instrument not found.", instruments, []⟩
    | some i =>
      if i.renterId != some uid then
        ⟨.err 400 "You are not the renter of this instrument.", instruments, []⟩
      else
        let i' := returnedDoc i
        ⟨.ok i', instruments.map (fun x => if x.id == instrumentId then i' else x), []⟩

/-- A rental field counts as cleared when it is unset or the empty
string the return handler writes. -/
def rentalFieldCleared (f : Option String) : Prop := f = none ∨ f = some ""

/-- The User invariant of the spec's data model: a non-empty free-text
description only on role Artist. -/
def userInv (u : User) : Prop := u.description ≠ "" → u.role = "Artist"

/-! Concrete sample documents used to instantiate the theorems below. -/

def samplePost : Post :=
  { id := "p1", userId := "u1", userName := "Alice A", message := "hello",
    dateTime := "2025-01-01", likedUsers := [] }

def sampleEvent : Event :=
  { id := "e1", name := "Jam", genre := "rock", host := "Alice",
    image := none, description := "open jam", location := "hall",
    date := "2025-06-01", userId := "u1", slots := 5,
    bookeduser := ["u1"], link := "http:x" }

def sampleUser : User :=
  { userId := "u1", role := "User", firstName := "Alice", lastName := "A",
    email := "a@x.com", password := hashPassword "pw", phone := "1",
    address := "addr", country := "IN", state := "TN", description := "" }

def sampleInstrument : Instrument :=
  { id := "i1", instrumentName := "Guitar", instrumentDescription := none,
    category := "string", amount := some "100", image := "",
    userId := "u1", userName := "Alice A", address := none,
    contactNumber := none, status := "available", rentedDate := none,
    expectedReturnDate := none, renterId := none }

def sampleRentedInstrument : Instrument :=
  { id := "i2", instrumentName := "Drum", instrumentDescription := none,
    category := "percussion", amount := some "50", image := "",
    userId := "u1", userName := "Alice A", address := none,
    contactNumber := none, status := "not available",
    rentedDate := some "2025-01-01", expectedReturnDate := some "2025-02-01",
    renterId := some "u2" }

def sampleRegisterBody : RegisterBody :=
  { role := "Musician", firstName := "Bob", lastName := "B",
    email := "b@x.com", password := "secret", phone := "2",
    address := "addr2", country := "IN", state := "KL", description := "" }

/-! Helper lemmas shared by the claim theorems. -/

/-- Membership reading of the Boolean any-check the like handler uses. -/
theorem any_beq_iff_mem (l : List String) (u : String) :
    (l.any fun idv => idv == u) = true ↔ u ∈ l := by
  simp

/-- Membership reading of the contains-check the RSVP handler uses. -/
theorem contains_iff_mem (l : List String) (u : String) :
    l.contains u = true ↔ u ∈ l := by
  rw [List.contains_eq_any_beq]
  exact List.any_beq

/-- Replacing the found document by one with the same key keeps it the
first match. -/
theorem find?_replace {α : Type} (key : α → String) (pid : String) (p p' : α)
    (hid : key p' = key p) :
    ∀ l : List α, l.find? (fun q => key q == pid) = some p →
      (l.map (fun q => if key q == pid then p' else q)).find?
        (fun q => key q == pid) = some p' := by
  intro l h
  induction l with
  | nil => simp at h
  | cons a t ih =>
    rw [List.map_cons]
    by_cases hb : (key a == pid) = true
    · rw [List.find?_cons_of_pos (p := fun q => key q == pid) t hb] at h
      injection h with h
      subst h
      rw [if_pos hb]
      exact List.find?_cons_of_pos (p := fun q => key q == pid) _
        (show (key p' == pid) = true by rw [hid]; exact hb)
    · rw [List.find?_cons_of_neg (p := fun q => key q == pid) t hb] at h
      rw [if_neg hb,
        List.find?_cons_of_neg (p := fun q => key q == pid) _ hb]
      exact ih h

/-- On a list containing the user, the toggle takes the filter branch. -/
theorem toggleLike_of_mem (l : List String) (u : String) (h : u ∈ l) :
    toggleLike l u = l.filter (fun idv => idv != u) := by
  rw [toggleLike, if_pos ((any_beq_iff_mem l u).mpr h)]

/-- On a list without the user, the toggle takes the append branch. -/
theorem toggleLike_of_not_mem (l : List String) (u : String) (h : u ∉ l) :
    toggleLike l u = l ++ [u] := by
  rw [toggleLike, if_neg (fun hc => h ((any_beq_iff_mem l u).mp hc))]

/-- A user absent from the liked list is in it after one toggle. -/
theorem mem_toggleLike_of_not_mem (l : List String) (u : String)
    (h : u ∉ l) : u ∈ toggleLike l u := by
  rw [toggleLike_of_not_mem l u h]
  simp

/-- A user present in the liked list is out of it after one toggle. -/
theorem not_mem_toggleLike_of_mem (l : List String) (u : String)
    (h : u ∈ l) : u ∉ toggleLike l u := by
  rw [toggleLike_of_mem l u h]
  simp [List.mem_filter]

/-- Two toggles with the same user restore the liked-set membership. -/
theorem mem_toggleLike_toggleLike (l : List String) (u x : String) :
    x ∈ toggleLike (toggleLike l u) u ↔ x ∈ l := by
  by_cases hu : u ∈ l
  · rw [toggleLike_of_mem l u hu,
      toggleLike_of_not_mem _ u (by simp [List.mem_filter])]
    simp only [List.mem_append, List.mem_filter, List.mem_singleton,
      bne_iff_ne, ne_eq]
    constructor
    · rintro (⟨hx, _⟩ | rfl)
      · exact hx
      · exact hu
    · intro hx
      by_cases hxu : x = u
      · exact Or.inr hxu
      · exact Or.inl ⟨hx, hxu⟩
  · rw [toggleLike_of_not_mem l u hu,
      toggleLike_of_mem _ u (by simp)]
    have h3 : (l ++ [u]).filter (fun idv => idv != u) = l := by
      rw [List.filter_append]
      have hl : l.filter (fun idv => idv != u) = l :=
        List.filter_eq_self.mpr
          (fun a ha => by rw [bne_iff_ne]; exact fun e => hu (e ▸ ha))
      have hsing : List.filter (fun idv => idv != u) [u] = [] := by simp
      rw [hl, hsing, List.append_nil]
    rw [h3]

/-- C1: Applying the like/unlike operation twice to the same post with
the same authenticated user returns the post's liked-set to its state
before the first application; a single application adds an absent user
and removes a present one. -/
theorem like_unlike_involution (posts : List Post) (pid uid : String)
    (p : Post) (hfind : posts.find? (fun q => q.id == pid) = some p) :
    (likePost (.valid uid) posts pid).resp =
      .ok { p with likedUsers := toggleLike p.likedUsers uid } ∧
    (likePost (.valid uid) (likePost (.valid uid) posts pid).store pid).resp =
      .ok { p with likedUsers := toggleLike (toggleLike p.likedUsers uid) uid } ∧
    (∀ x, x ∈ toggleLike (toggleLike p.likedUsers uid) uid ↔ x ∈ p.likedUsers) ∧
    (uid ∈ p.likedUsers → uid ∉ toggleLike p.likedUsers uid) ∧
    (uid ∉ p.likedUsers → uid ∈ toggleLike p.likedUsers uid) := by
  have h2 := find?_replace Post.id pid p
    { p with likedUsers := toggleLike p.likedUsers uid } rfl posts hfind
  have e1 : likePost (.valid uid) posts pid =
      ⟨.ok { p with likedUsers := toggleLike p.likedUsers uid },
       posts.map (fun q => if q.id == pid then
         { p with likedUsers := toggleLike p.likedUsers uid } else q),
       [.updatePost { p with likedUsers := toggleLike p.likedUsers uid }]⟩ := by
    simp only [likePost]
    rw [hfind]
  refine ⟨?_, ?_, fun x => mem_toggleLike_toggleLike _ _ _,
    fun h => not_mem_toggleLike_of_mem _ _ h,
    fun h => mem_toggleLike_of_not_mem _ _ h⟩
  · rw [e1]
  · rw [e1]
    simp only [likePost]
    rw [h2]

/-- Witness for C1 at a concrete post and user. -/
theorem like_unlike_involution_witness :
    (likePost (TokenCheck.valid "u2") [samplePost] "p1").resp =
      ApiResult.ok { samplePost with likedUsers := toggleLike samplePost.likedUsers "u2" } :=
  (like_unlike_involution [samplePost] "p1" "u2" samplePost (by decide)).1

/-- C2: For an existing post and an authenticated requester, delete
succeeds, removes the post from the store and broadcasts a deletePost
event carrying only the post identifier exactly when the requester is
the post's author; any other authenticated requester gets 403 and the
store is unchanged. -/
theorem delete_post_author_only (posts : List Post) (pid uid : String)
    (p : Post) (hfind : posts.find? (fun q => q.id == pid) = some p) :
    (p.userId = uid →
      deletePost (.valid uid) posts pid =
        ⟨.ok (), posts.filter (fun q => q.id != p.id), [.deletePost p.id]⟩ ∧
      (posts.filter (fun q => q.id != p.id)).find?
        (fun q => q.id == pid) = none) ∧
    (p.userId ≠ uid →
      deletePost (.valid uid) posts pid =
        ⟨.err 403 "You cannot delete this post", posts, []⟩) := by
  have hpid : (p.id == pid) = true :=
    List.find?_some (p := fun (q : Post) => q.id == pid) hfind
  constructor
  · intro h
    subst h
    constructor
    · simp only [deletePost, hfind]
      rw [if_neg (by simp)]
    · rw [List.find?_eq_none]
      intro x hx hc
      have hne := (List.mem_filter.mp hx).2
      rw [bne_iff_ne] at hne
      rw [beq_iff_eq] at hc hpid
      exact hne (hc.trans hpid.symm)
  · intro h
    simp only [deletePost, hfind]
    rw [if_pos (by rw [bne_iff_ne]; exact h)]

/-- Witness for C2 at a concrete post whose author deletes it. -/
theorem delete_post_author_only_witness :
    deletePost (TokenCheck.valid "u1") [samplePost] "p1" =
      ⟨ApiResult.ok (), [samplePost].filter (fun q => q.id != samplePost.id),
        [FeedEvent.deletePost samplePost.id]⟩ :=
  ((delete_post_author_only [samplePost] "p1" "u1" samplePost (by decide)).1 rfl).1

/-- C3: For an existing event, RSVP with a reference already among the
attendees answers 400 AlreadyRegistered and leaves the store unchanged;
otherwise it appends exactly that reference, a second identical RSVP
answers 400 AlreadyRegistered without changing the store, and the
at-most-once attendee invariant is preserved. -/
theorem rsvp_idempotent_guard (events : List Event) (eid uid : String)
    (e : Event) (hfind : events.find? (fun x => x.id == eid) = some e) :
    (uid ∈ e.bookeduser →
      rsvp events eid uid = ⟨.err 400 "User already RSVP'd", events, []⟩) ∧
    (uid ∉ e.bookeduser →
      rsvp events eid uid =
        ⟨.ok { e with bookeduser := e.bookeduser ++ [uid] },
         events.map (fun x => if x.id == eid then
           { e with bookeduser := e.bookeduser ++ [uid] } else x), []⟩ ∧
      (rsvp (rsvp events eid uid).store eid uid).resp =
        .err 400 "User already RSVP'd" ∧
      (rsvp (rsvp events eid uid).store eid uid).store =
        (rsvp events eid uid).store ∧
      (e.bookeduser.Nodup → (e.bookeduser ++ [uid]).Nodup)) := by
  constructor
  · intro h
    simp only [rsvp, hfind]
    rw [if_pos ((contains_iff_mem _ _).mpr h)]
  · intro h
    have e1 : rsvp events eid uid =
        ⟨.ok { e with bookeduser := e.bookeduser ++ [uid] },
         events.map (fun x => if x.id == eid then
           { e with bookeduser := e.bookeduser ++ [uid] } else x), []⟩ := by
      simp only [rsvp, hfind]
      rw [if_neg (fun hc => h ((contains_iff_mem _ _).mp hc))]
    have h2 := find?_replace Event.id eid e
      { e with bookeduser := e.bookeduser ++ [uid] } rfl events hfind
    have e2 : rsvp (rsvp events eid uid).store eid uid =
        ⟨.err 400 "User already RSVP'd", (rsvp events eid uid).store, []⟩ := by
      rw [e1]
      simp only [rsvp, h2]
      rw [if_pos ((contains_iff_mem _ _).mpr (by simp))]
    refine ⟨e1, by rw [e2], by rw [e2], fun hnd => ?_⟩
    exact hnd.append (List.nodup_singleton uid)
      (fun a ha hb => h ((List.mem_singleton.mp hb) ▸ ha))

/-- Witness for C3 at a concrete event and a user not yet registered. -/
theorem rsvp_idempotent_guard_witness :
    rsvp [sampleEvent] "e1" "u2" =
      ⟨ApiResult.ok { sampleEvent with bookeduser := sampleEvent.bookeduser ++ ["u2"] },
       [sampleEvent].map (fun x => if x.id == "e1" then
         { sampleEvent with bookeduser := sampleEvent.bookeduser ++ ["u2"] } else x),
       []⟩ :=
  ((rsvp_idempotent_guard [sampleEvent] "e1" "u2" sampleEvent (by decide)).2
    (by decide)).1

/-- C4 (amended): For an existing instrument and an authenticated
requester, rent answers SelfRentalForbidden when the requester owns the
instrument and NotAvailable when the status is not available, each time
leaving the store unchanged; otherwise it sets status to not available,
sets the renter reference to the requester and copies the rented-on and
expected-return dates from the request body, so the date fields are
filled exactly when the request supplies them. -/
theorem rent_instrument_claim (instruments : List Instrument)
    (iid uid : String) (body : RentBody) (i : Instrument)
    (hfind : instruments.find? (fun x => x.id == iid) = some i) :
    (i.userId = uid →
      rentInstrument (.valid uid) instruments iid body =
        ⟨.err 400 "You cannot rent your own instrument.", instruments, []⟩) ∧
    (i.userId ≠ uid → i.status ≠ "available" →
      rentInstrument (.valid uid) instruments iid body =
        ⟨.err 400 "Instrument is not available for rent.", instruments, []⟩) ∧
    (i.userId ≠ uid → i.status = "available" →
      rentInstrument (.valid uid) instruments iid body =
        ⟨.ok (rentedDoc i uid body),
         instruments.map (fun x => if x.id == iid then rentedDoc i uid body else x),
         []⟩ ∧
      (rentedDoc i uid body).status = "not available" ∧
      (rentedDoc i uid body).renterId = some uid ∧
      (rentedDoc i uid body).rentedDate = body.rentedDate ∧
      (rentedDoc i uid body).expectedReturnDate = body.expectedReturnDate) := by
  refine ⟨fun h => ?_, fun h1 h2 => ?_, fun h1 h2 => ⟨?_, rfl, rfl, rfl, rfl⟩⟩
  · simp only [rentInstrument, hfind]
    rw [if_pos (beq_iff_eq.mpr h)]
  · simp only [rentInstrument, hfind]
    rw [if_neg (fun hc => h1 (beq_iff_eq.mp hc)),
      if_pos (bne_iff_ne.mpr h2)]
  · simp only [rentInstrument, hfind]
    rw [if_neg (fun hc => h1 (beq_iff_eq.mp hc)),
      if_neg (fun hc => (bne_iff_ne.mp hc) h2)]

/-- Witness for C4 at a concrete available instrument, a non-owner
requester and a body supplying both dates. -/
theorem rent_instrument_claim_witness :
    rentInstrument (TokenCheck.valid "u2") [sampleInstrument] "i1"
        ⟨some "2025-03-01", some "2025-04-01"⟩ =
      ⟨ApiResult.ok
        (rentedDoc sampleInstrument "u2" ⟨some "2025-03-01", some "2025-04-01"⟩),
       [sampleInstrument].map (fun x => if x.id == "i1" then
         rentedDoc sampleInstrument "u2" ⟨some "2025-03-01", some "2025-04-01"⟩
         else x), []⟩ :=
  ((rent_instrument_claim [sampleInstrument] "i1" "u2"
    ⟨some "2025-03-01", some "2025-04-01"⟩ sampleInstrument
    (by decide)).2.2 (by decide) rfl).1

/-- C4 counterexample: a rent request whose body carries no dates
succeeds, yet the stored rented-on and expected-return fields stay
unset, so the operation does not fill all three rental fields. -/
theorem rent_instrument_counterexample :
    (rentInstrument (TokenCheck.valid "u2") [sampleInstrument] "i1"
        ⟨none, none⟩).resp =
      ApiResult.ok (rentedDoc sampleInstrument "u2" ⟨none, none⟩) ∧
    (rentedDoc sampleInstrument "u2" ⟨none, none⟩).status = "not available" ∧
    (rentedDoc sampleInstrument "u2" ⟨none, none⟩).rentedDate = none ∧
    (rentedDoc sampleInstrument "u2" ⟨none, none⟩).expectedReturnDate = none := by
  decide

/-- C5: For an existing instrument, return answers NotRenter and leaves
the store unchanged when the requester is not the recorded renter; the
recorded renter succeeds, status goes back to available and the three
rental fields are cleared (the handler writes the empty string). -/
theorem return_instrument_claim (instruments : List Instrument)
    (iid uid : String) (i : Instrument)
    (hfind : instruments.find? (fun x => x.id == iid) = some i) :
    (i.renterId ≠ some uid →
      returnInstrument (.valid uid) instruments iid =
        ⟨.err 400 "You are not the renter of this instrument.",
          instruments, []⟩) ∧
    (i.renterId = some uid →
      returnInstrument (.valid uid) instruments iid =
        ⟨.ok (returnedDoc i),
         instruments.map (fun x => if x.id == iid then returnedDoc i else x),
         []⟩ ∧
      (returnedDoc i).status = "available" ∧
      rentalFieldCleared (returnedDoc i).rentedDate ∧
      rentalFieldCleared (returnedDoc i).expectedReturnDate ∧
      rentalFieldCleared (returnedDoc i).renterId) := by
  constructor
  · intro h
    simp only [returnInstrument, hfind]
    rw [if_pos (bne_iff_ne.mpr h)]
  · intro h
    refine ⟨?_, rfl, Or.inr rfl, Or.inr rfl, Or.inr rfl⟩
    simp only [returnInstrument, hfind]
    rw [if_neg (fun hc => (bne_iff_ne.mp hc) h)]

/-- Witness for C5 at a concrete rented instrument returned by its
recorded renter. -/
theorem return_instrument_claim_witness :
    returnInstrument (TokenCheck.valid "u2") [sampleRentedInstrument] "i2" =
      ⟨ApiResult.ok (returnedDoc sampleRentedInstrument),
       [sampleRentedInstrument].map (fun x => if x.id == "i2" then
         returnedDoc sampleRentedInstrument else x), []⟩ :=
  ((return_instrument_claim [sampleRentedInstrument] "i2" "u2"
    sampleRentedInstrument (by decide)).2 rfl).1

/-- C6 (amended): On every token-guarded operation a missing bearer
token yields 401 Unauthorized, while a malformed, expired or
signature-mismatched token makes jwt.verify throw into the handler's
catch block, yielding that handler's 500 Internal response; in every
such case the store is unchanged and nothing is broadcast. -/
theorem auth_guard_claim (db : List User) (posts : List Post)
    (instruments : List Instrument) (ub : UpdateBody) (rb : RentBody)
    (pid iid : String) :
    getUser .missing db = .err 401 "Unauthorized" ∧
    getUser .invalid db = .err 500 "Server error" ∧
    updateUser .missing db ub = ⟨.err 401 "Unauthorized", db, []⟩ ∧
    updateUser .invalid db ub = ⟨.err 500 "Server error", db, []⟩ ∧
    likePost .missing posts pid = ⟨.err 401 "Unauthorized", posts, []⟩ ∧
    likePost .invalid posts pid = ⟨.err 500 "Server error", posts, []⟩ ∧
    deletePost .missing posts pid = ⟨.err 401 "Unauthorized", posts, []⟩ ∧
    deletePost .invalid posts pid = ⟨.err 500 "Server error", posts, []⟩ ∧
    rentInstrument .missing instruments iid rb =
      ⟨.err 401 "Unauthorized", instruments, []⟩ ∧
    rentInstrument .invalid instruments iid rb =
      ⟨.err 500 "Unable to rent the instrument.", instruments, []⟩ ∧
    returnInstrument .missing instruments iid =
      ⟨.err 401 "Unauthorized", instruments, []⟩ ∧
    returnInstrument .invalid instruments iid =
      ⟨.err 500 "Unable to return the instrument.", instruments, []⟩ :=
  ⟨rfl, rfl, rfl, rfl, rfl, rfl, rfl, rfl, rfl, rfl, rfl, rfl⟩

/-- C6 counterexample: an invalid (non-missing) token on the like
operation answers the catch-all 500 response, not 401 Unauthorized. -/
theorem auth_guard_counterexample :
    likePost TokenCheck.invalid [] "p1" =
      ⟨ApiResult.err 500 "Server error", [], []⟩ ∧
    (ApiResult.err 500 "Server error" : ApiResult Post) ≠
      ApiResult.err 401 "Unauthorized" :=
  ⟨rfl, by decide⟩

/-- C7: Login answers the bad-credentials rejection when the email is
unknown or the password does not match the stored hash; registering a
fresh email and logging in with the same credentials succeeds and
returns a signed token bound to the new user's identifier. -/
theorem login_claim (db : List User) (body : RegisterBody) (freshId : String)
    (hnew : db.find? (fun u => u.email == body.email) = none) :
    (register db body freshId).resp = .ok () ∧
    login (register db body freshId).store body.email body.password =
      .ok (issueToken freshId) ∧
    (issueToken freshId).userId = freshId ∧
    (∀ e p, db.find? (fun u => u.email == e) = none →
      login db e p = .err 400 "Invalid credentials") ∧
    (∀ e p u, db.find? (fun u => u.email == e) = some u →
      comparePassword p u.password = false →
      login db e p = .err 400 "Invalid credentials") := by
  refine ⟨?_, ?_, rfl, ?_, ?_⟩
  · simp only [register, hnew]
    rw [if_neg (by simp)]
  · have hstore : (register db body freshId).store =
        db ++ [newUserDoc body freshId] := by
      simp only [register, hnew]
      rw [if_neg (by simp)]
    rw [hstore]
    simp [login, List.find?_append, hnew, newUserDoc, comparePassword]
  · intro e p he
    simp only [login, he]
  · intro e p u hu hcmp
    simp only [login, hu]
    rw [if_neg (by simp [hcmp])]

/-- Witness for C7: register on an empty store, then login with the
same credentials. -/
theorem login_claim_witness :
    login (register [] sampleRegisterBody "u9").store sampleRegisterBody.email
      sampleRegisterBody.password = ApiResult.ok (issueToken "u9") :=
  (login_claim [] sampleRegisterBody "u9" rfl).2.1

/-- Request body of a listing creation that carries no status field. -/
def noStatusBody : InstrumentBody :=
  { instrumentName := "Violin", instrumentDescription := none,
    amount := none, userId := "u1", userName := "Alice A", address := none,
    contactNumber := none, status := none, rentedDate := none,
    expectedReturnDate := none, renterId := none, category := "string" }

/-- Request body of a listing creation that supplies its own status. -/
def suppliedStatusBody : InstrumentBody :=
  { instrumentName := "Cello", instrumentDescription := none,
    amount := none, userId := "u1", userName := "Alice A", address := none,
    contactNumber := none, status := some "not available",
    rentedDate := none, expectedReturnDate := none, renterId := none,
    category := "string" }

/-- C8 (amended): A created instrument listing is persisted with the
schema default status available exactly when the request body carries
no status field; a body-supplied status value is stored as given. -/
theorem instrument_status_claim (instruments : List Instrument)
    (body : InstrumentBody) (file : Option String) (fid : String) :
    (addnewinstrument instruments body file fid).store =
      instruments ++ [newInstrumentDoc body file fid] ∧
    (newInstrumentDoc body file fid).status = body.status.getD "available" ∧
    (body.status = none →
      (newInstrumentDoc body file fid).status = "available") := by
  refine ⟨rfl, rfl, fun h => ?_⟩
  simp [newInstrumentDoc, h]

/-- Witness for C8 at a request that omits the status field. -/
theorem instrument_status_claim_witness :
    (newInstrumentDoc noStatusBody none "i8").status = "available" :=
  (instrument_status_claim [] noStatusBody none "i8").2.2 rfl

/-- C8 counterexample: a creation request that supplies its own status
is persisted with that status, not with available. -/
theorem instrument_status_counterexample :
    (addnewinstrument [] suppliedStatusBody none "i9").store =
      [newInstrumentDoc suppliedStatusBody none "i9"] ∧
    (newInstrumentDoc suppliedStatusBody none "i9").status =
      "not available" ∧
    (newInstrumentDoc suppliedStatusBody none "i9").status ≠ "available" := by
  decide

/-- Profile-update body that only sets the free-text description. -/
def descUpdateBody : UpdateBody :=
  { firstName := none, lastName := none, email := none, password := none,
    country := none, state := none, description := some "street art" }

/-- C9 (amended): Registration always writes a record satisfying the
description invariant (non-Artist registrations store an empty
description); profile update writes the request's description whatever
the stored role is, so it preserves the invariant only when the request
description is absent or empty, or the target user's role is Artist. -/
theorem description_invariant_claim (db : List User) (rb : RegisterBody)
    (fid uid : String) (u : User) (b : UpdateBody) :
    userInv (newUserDoc rb fid) ∧
    (db.find? (fun v => v.userId == uid) = some u →
      (updateUser (.valid uid) db b).resp = .ok (applyUpdate u b)) ∧
    ((b.description = none ∨ b.description = some "") →
      userInv u → userInv (applyUpdate u b)) ∧
    (u.role = "Artist" → userInv (applyUpdate u b)) := by
  refine ⟨?_, fun hfind => ?_, fun hd hu => ?_, fun hr => ?_⟩
  · intro h
    by_cases hra : rb.role = "Artist"
    · simpa [newUserDoc] using hra
    · exfalso
      exact h (by simp [newUserDoc, hra])
  · simp only [updateUser, hfind]
  · intro hdesc
    have hrole : (applyUpdate u b).role = u.role := rfl
    rw [hrole]
    apply hu
    rcases hd with h0 | h0
    · simpa [applyUpdate, h0] using hdesc
    · exfalso
      exact hdesc (by simp [applyUpdate, h0])
  · intro _
    exact hr

/-- Witness for C9: the update handler answers with the request's
description applied to the stored user. -/
theorem description_invariant_claim_witness :
    (updateUser (TokenCheck.valid "u1") [sampleUser] descUpdateBody).resp =
      ApiResult.ok (applyUpdate sampleUser descUpdateBody) :=
  (description_invariant_claim [sampleUser] sampleRegisterBody "u9" "u1"
    sampleUser descUpdateBody).2.1 (by decide)

/-- C9 counterexample: updating a role-User profile with a non-empty
description stores that description, breaking the invariant that only
Artists carry one. -/
theorem description_invariant_counterexample :
    (updateUser (TokenCheck.valid "u1") [sampleUser] descUpdateBody).resp =
      ApiResult.ok (applyUpdate sampleUser descUpdateBody) ∧
    (applyUpdate sampleUser descUpdateBody).description = "street art" ∧
    (applyUpdate sampleUser descUpdateBody).role = "User" ∧
    ¬ userInv (applyUpdate sampleUser descUpdateBody) := by
  refine ⟨rfl, rfl, rfl, fun hc => ?_⟩
  exact absurd (hc (by decide)) (by decide)

/-- C10: When the backing collection is empty, the list-events and
list-usernames operations answer 404 NotFound rather than an empty
list, so every successful list response has at least one element. -/
theorem empty_list_notfound (events : List Event) (db : List User)
    (l : List Event) (names : List String) :
    getEventsData [] = .err 404 "No events found" ∧
    getUsernames ([] : List User) = .err 404 "No users found" ∧
    (getEventsData events = .ok l → l ≠ []) ∧
    (getUsernames db = .ok names → names ≠ []) := by
  refine ⟨rfl, rfl, ?_, ?_⟩
  · intro h hc
    subst hc
    cases events with
    | nil => simp [getEventsData] at h
    | cons a t =>
      simp only [getEventsData] at h
      rw [if_neg (by simp)] at h
      injection h with h
      exact absurd h (by simp)
  · intro h hc
    subst hc
    cases db with
    | nil => simp [getUsernames] at h
    | cons a t =>
      simp only [getUsernames] at h
      rw [if_neg (by simp)] at h
      injection h with h
      exact absurd h (by simp)

/-- Witness for C10: concrete non-empty stores yield non-empty
successful listings. -/
theorem empty_list_notfound_witness :
    ([sampleEvent] : List Event) ≠ [] ∧
    (["Alice A"] : List String) ≠ [] :=
  ⟨(empty_list_notfound [sampleEvent] [] [sampleEvent] []).2.2.1 (by decide),
   (empty_list_notfound [] [sampleUser] [] ["Alice A"]).2.2.2 (by decide)⟩

end RenderDeploy
